import Mathlib

/-!
Verification development for the tile-format core of this repository:
the packed `NodeInfo` record (`src/baldr/nodeinfo.cc`) and the
`GraphTileHeaderBuilder` (`src/mjolnir/graphtileheaderbuilder.cc`).
Machine integers are embedded as `Nat` with the exact mask/shift
arithmetic of the source; quantities the source computes in `double`
are embedded as exact rationals, with the agreement argument recorded
at the definition.
-/

namespace Valhalla

/-- Modelled from the spec: the node-type enumeration declared in
`graphconstants.h`, which is not under `src/`. Spec section 3 requires at
least the three transit stop kinds (rail stop, bus stop, multi-use transit
stop) together with ordinary junction kinds. -/
inductive NodeType where
  | kStreetIntersection
  | kGate
  | kBollard
  | kTollBooth
  | kRailStop
  | kBusStop
  | kMultiUseTransitStop
  | kBikeShare
  | kParking
  deriving DecidableEq

/-- Modelled from the spec: `kMaxLocalEdgeIndex` is declared outside `src/`;
the spec fixes its value at 7. -/
def kMaxLocalEdgeIndex : Nat := 7

/-- Modelled from the spec: the heading expansion factor declared outside
`src/` is `360/255`. The source computes `byte * kHeadingExpandFactor` in
`double`; for every byte in `0..255` the exact product `byte * 360/255` is
never closer than `1/34` to a half-integer (a half-integer value would need
`17` to divide `48 * byte`, which forces the product to be an integer), while
the `double` evaluation differs from the exact product by far less than
`1/34`, so rounding the exact rational gives the same integer as the source. -/
def kHeadingExpandFactor : ℚ := 360 / 255

/-- Modelled from the spec: the eight travel-mode access flag constants from
`graphconstants.h` (not under `src/`); spec section 3 lists one bitmask with
eight single-bit travel-mode flags. The claims depend only on each constant
being nonzero. -/
def kAutoAccess : Nat := 1

/-- Modelled from the spec: pedestrian access flag, see `kAutoAccess`. -/
def kPedestrianAccess : Nat := 2

/-- Modelled from the spec: bicycle access flag, see `kAutoAccess`. -/
def kBicycleAccess : Nat := 4

/-- Modelled from the spec: truck access flag, see `kAutoAccess`. -/
def kTruckAccess : Nat := 8

/-- Modelled from the spec: emergency access flag, see `kAutoAccess`. -/
def kEmergencyAccess : Nat := 16

/-- Modelled from the spec: taxi access flag, see `kAutoAccess`. -/
def kTaxiAccess : Nat := 32

/-- Modelled from the spec: bus access flag, see `kAutoAccess`. -/
def kBusAccess : Nat := 64

/-- Modelled from the spec: HOV access flag, see `kAutoAccess`. -/
def kHOVAccess : Nat := 128

/-- Embeds `ContinuityLookup` (src/baldr/nodeinfo.cc line 12): cumulative
pair counts for the strictly upper triangular 8 by 8 name-consistency
relation. -/
def ContinuityLookup : List Nat := [0, 7, 13, 18, 22, 25, 27]

/-- The triangular bit index of spec section 4.1: for `i < j` both in `0..7`
the bit storing the name-consistency of the pair is
`ContinuityLookup[i] + (j - i - 1)`. -/
def triangularIndex (i j : Nat) : Nat :=
  ContinuityLookup.getD i 0 + (j - i - 1)

/-- Embeds `access_json` (src/baldr/nodeinfo.cc lines 14-25): the debug/JSON
access-mode breakdown of a node access bitmask. The source computes each
boolean as `static_cast<bool>(access && kFlag)`: the logical AND of two
integers, which is `(access != 0) && (kFlag != 0)`. -/
def access_json (access : Nat) : List (String × Bool) :=
  [ ("bicycle", decide (access ≠ 0) && decide (kBicycleAccess ≠ 0)),
    ("bus", decide (access ≠ 0) && decide (kBusAccess ≠ 0)),
    ("car", decide (access ≠ 0) && decide (kAutoAccess ≠ 0)),
    ("emergency", decide (access ≠ 0) && decide (kEmergencyAccess ≠ 0)),
    ("HOV", decide (access ≠ 0) && decide (kHOVAccess ≠ 0)),
    ("pedestrian", decide (access ≠ 0) && decide (kPedestrianAccess ≠ 0)),
    ("taxi", decide (access ≠ 0) && decide (kTaxiAccess ≠ 0)),
    ("truck", decide (access ≠ 0) && decide (kTruckAccess ≠ 0)) ]

/-- Embeds the packed `NodeInfo` record. Each field holds the raw stored
value of the corresponding member; `stop_` is the single 32-bit overlay
word that the source union exposes both as `stop_.stop_index` and as
`stop_.name_consistency`. -/
structure NodeInfo where
  latlng_first : ℚ
  latlng_second : ℚ
  edge_index_ : Nat
  edge_count_ : Nat
  bestrc_ : Nat
  access_ : Nat
  intersection_ : Nat
  admin_index_ : Nat
  timezone_ : Nat
  local_driveability_ : Nat
  density_ : Nat
  type_ : NodeType
  local_edge_count_ : Nat
  parent_ : Bool
  child_ : Bool
  mode_change_ : Bool
  traffic_signal_ : Bool
  stop_ : Nat
  headings_ : Nat

/-- Embeds the default constructor (src/baldr/nodeinfo.cc lines 56-58):
every stored field zeroed; the zero node type is the lowest enumerator. -/
def NodeInfo.init : NodeInfo :=
  { latlng_first := 0, latlng_second := 0, edge_index_ := 0, edge_count_ := 0,
    bestrc_ := 0, access_ := 0, intersection_ := 0, admin_index_ := 0,
    timezone_ := 0, local_driveability_ := 0, density_ := 0,
    type_ := NodeType.kStreetIntersection, local_edge_count_ := 0,
    parent_ := false, child_ := false, mode_change_ := false,
    traffic_signal_ := false, stop_ := 0, headings_ := 0 }

/-- Embeds `NodeInfo::edge_index` (src/baldr/nodeinfo.cc lines 66-68). -/
def NodeInfo.edge_index (n : NodeInfo) : Nat := n.edge_index_

/-- Embeds `NodeInfo::edge_count` (src/baldr/nodeinfo.cc lines 71-73). -/
def NodeInfo.edge_count (n : NodeInfo) : Nat := n.edge_count_

/-- Embeds `NodeInfo::access` (src/baldr/nodeinfo.cc lines 82-84). -/
def NodeInfo.access (n : NodeInfo) : Nat := n.access_

/-- Embeds `NodeInfo::local_driveability` (src/baldr/nodeinfo.cc lines
103-106): `(local_driveability_ & (3 << s)) >> s` with `s = localidx * 2`.
The source casts the resulting 2-bit value to the `Traversability`
enumeration; the cast preserves the numeric value, so the embedding returns
the value itself. -/
def NodeInfo.local_driveability (n : NodeInfo) (localidx : Nat) : Nat :=
  (n.local_driveability_ &&& (3 <<< (localidx * 2))) >>> (localidx * 2)

/-- Embeds `NodeInfo::type` (src/baldr/nodeinfo.cc lines 114-116). -/
def NodeInfo.type (n : NodeInfo) : NodeType := n.type_

/-- Embeds `NodeInfo::is_transit` (src/baldr/nodeinfo.cc lines 119-123):
true exactly for the three transit stop node types. -/
def NodeInfo.is_transit (n : NodeInfo) : Bool :=
  decide (n.type = NodeType.kRailStop) || decide (n.type = NodeType.kBusStop) ||
    decide (n.type = NodeType.kMultiUseTransitStop)

/-- Embeds `NodeInfo::local_edge_count` (src/baldr/nodeinfo.cc lines
127-129): the stored value plus one. -/
def NodeInfo.local_edge_count (n : NodeInfo) : Nat := n.local_edge_count_ + 1

/-- Embeds `NodeInfo::stop_index` (src/baldr/nodeinfo.cc lines 155-157):
returns `stop_.stop_index`, the raw overlay word, with no transit guard. -/
def NodeInfo.stop_index (n : NodeInfo) : Nat := n.stop_

/-- Embeds `NodeInfo::name_consistency` (src/baldr/nodeinfo.cc lines
161-171): reflexive pairs are consistent; otherwise the larger index beyond
`kMaxLocalEdgeIndex` yields false, and in range the bit
`ContinuityLookup[low] + (high - low - 1)` of `stop_.name_consistency` is
tested by masking with a shifted one. -/
def NodeInfo.name_consistency (n : NodeInfo) (f t : Nat) : Bool :=
  if f = t then true
  else if f < t then
    if t > kMaxLocalEdgeIndex then false
    else decide ((n.stop_ &&& (1 <<< (ContinuityLookup.getD f 0 + (t - f - 1)))) ≠ 0)
  else
    if f > kMaxLocalEdgeIndex then false
    else decide ((n.stop_ &&& (1 <<< (ContinuityLookup.getD t 0 + (f - t - 1)))) ≠ 0)

/-- Rounding half away from zero on a nonnegative rational, the behavior of
`std::round` on the nonnegative products arising in `heading`. -/
def roundQ (x : ℚ) : ℤ := ⌊x + 1 / 2⌋

/-- Embeds `NodeInfo::heading` (src/baldr/nodeinfo.cc lines 175-181):
extract the byte `(headings_ & (255 << shift)) >> shift` with
`shift = localidx * 8`, expand by `kHeadingExpandFactor` and round. The
source rounds in `double`; the agreement of exact rational rounding with the
`double` computation is argued at `kHeadingExpandFactor`. -/
def NodeInfo.heading (n : NodeInfo) (localidx : Nat) : Nat :=
  (roundQ ((((n.headings_ &&& (255 <<< (localidx * 8))) >>> (localidx * 8) : Nat) : ℚ)
      * kHeadingExpandFactor)).toNat

/-- Modelled from the spec: `kMaxVersionSize`, the fixed capacity of the
version buffer, is declared outside `src/`; spec section 8 uses a capacity
of 16 bytes for its example, adopted here. -/
def kMaxVersionSize : Nat := 16

/-- The C string a `char` buffer holds: the bytes before the first zero. -/
def cstr (s : List Nat) : List Nat := s.takeWhile (fun c => decide (c ≠ 0))

/-- Embeds the `GraphTileHeaderBuilder` state (the `GraphTileHeader` members
set by src/mjolnir/graphtileheaderbuilder.cc): schema version, creation
date, the fixed `kMaxVersionSize`-byte version buffer, the two counts and
the seven section offsets. -/
structure GraphTileHeaderBuilder where
  internal_version_ : Int
  date_created_ : Nat
  version_ : List Nat
  nodecount_ : Nat
  directededgecount_ : Nat
  edgeinfo_offset_ : Nat
  textlist_offset_ : Nat
  exitlist_offset_ : Nat
  admin_offset_ : Nat
  merlist_offset_ : Nat
  timedres_offset_ : Nat
  transit_offset_ : Nat

namespace GraphTileHeaderBuilder

/-- Embeds `set_internal_version` (src/mjolnir/graphtileheaderbuilder.cc
lines 15-17). -/
def set_internal_version (b : GraphTileHeaderBuilder) (v : Int) : GraphTileHeaderBuilder :=
  { b with internal_version_ := v }

/-- Embeds `set_date_created` (lines 20-22). -/
def set_date_created (b : GraphTileHeaderBuilder) (date : Nat) : GraphTileHeaderBuilder :=
  { b with date_created_ := date }

/-- Embeds `set_version` (lines 25-28): `strncpy(version_, version.c_str(),
kMaxVersionSize)` copies the C string content into the buffer, zero-filling
the remainder when the string is shorter than the capacity, and then the
last byte of the buffer is set to zero. -/
def set_version (b : GraphTileHeaderBuilder) (s : List Nat) : GraphTileHeaderBuilder :=
  { b with version_ :=
      ((cstr s).take kMaxVersionSize ++
        List.replicate (kMaxVersionSize - (cstr s).length) 0).set (kMaxVersionSize - 1) 0 }

/-- Modelled from the spec: reading the stored version back (the accessor
lives in the base `GraphTileHeader`, outside `src/`) yields the C string
held by the buffer. -/
def version (b : GraphTileHeaderBuilder) : List Nat := cstr b.version_

/-- Embeds `set_nodecount` (lines 31-33). -/
def set_nodecount (b : GraphTileHeaderBuilder) (count : Nat) : GraphTileHeaderBuilder :=
  { b with nodecount_ := count }

/-- Embeds `set_directededgecount` (lines 36-38). -/
def set_directededgecount (b : GraphTileHeaderBuilder) (count : Nat) : GraphTileHeaderBuilder :=
  { b with directededgecount_ := count }

/-- Embeds `set_edgeinfo_offset` (lines 41-43). -/
def set_edgeinfo_offset (b : GraphTileHeaderBuilder) (offset : Nat) : GraphTileHeaderBuilder :=
  { b with edgeinfo_offset_ := offset }

/-- Embeds `set_textlist_offset` (lines 46-48). -/
def set_textlist_offset (b : GraphTileHeaderBuilder) (offset : Nat) : GraphTileHeaderBuilder :=
  { b with textlist_offset_ := offset }

/-- Embeds `set_exitlist_offset` (lines 51-53). -/
def set_exitlist_offset (b : GraphTileHeaderBuilder) (offset : Nat) : GraphTileHeaderBuilder :=
  { b with exitlist_offset_ := offset }

/-- Embeds `set_admin_offset` (lines 56-58). -/
def set_admin_offset (b : GraphTileHeaderBuilder) (offset : Nat) : GraphTileHeaderBuilder :=
  { b with admin_offset_ := offset }

/-- Embeds `set_merlist_offset` (lines 61-63). -/
def set_merlist_offset (b : GraphTileHeaderBuilder) (offset : Nat) : GraphTileHeaderBuilder :=
  { b with merlist_offset_ := offset }

/-- Embeds `set_timedres_offset` (lines 67-69). -/
def set_timedres_offset (b : GraphTileHeaderBuilder) (offset : Nat) : GraphTileHeaderBuilder :=
  { b with timedres_offset_ := offset }

/-- Embeds `set_transit_offset` (lines 72-74). -/
def set_transit_offset (b : GraphTileHeaderBuilder) (offset : Nat) : GraphTileHeaderBuilder :=
  { b with transit_offset_ := offset }

end GraphTileHeaderBuilder

/-- The seven section offsets in section order (spec section 3): edge-info,
text list, exit list, admin, multi-edge restriction list, timed restriction
list, transit schedule. -/
def sectionOffsets (b : GraphTileHeaderBuilder) : List Nat :=
  [b.edgeinfo_offset_, b.textlist_offset_, b.exitlist_offset_, b.admin_offset_,
   b.merlist_offset_, b.timedres_offset_, b.transit_offset_]

/-- The seven section offsets are monotonically non-decreasing in section
order (equal values allowed). -/
def offsetsNondecreasing (b : GraphTileHeaderBuilder) : Bool :=
  decide (b.edgeinfo_offset_ ≤ b.textlist_offset_) &&
  decide (b.textlist_offset_ ≤ b.exitlist_offset_) &&
  decide (b.exitlist_offset_ ≤ b.admin_offset_) &&
  decide (b.admin_offset_ ≤ b.merlist_offset_) &&
  decide (b.merlist_offset_ ≤ b.timedres_offset_) &&
  decide (b.timedres_offset_ ≤ b.transit_offset_)

/-- The error kinds of the seal-time validation required by spec section 7. -/
inductive SealError where
  | offsetOrdering
  | overlapsFixedRegion
  deriving DecidableEq

/-- Modelled from the spec: the `Populated` to `Sealed` transition of the
builder is a design requirement of spec sections 4.3 and 7 with no
implementation under `src/`. It validates that the seven section offsets are
monotonically non-decreasing in section order and that each offset clears
the end of the fixed-size region (header plus node array plus directed-edge
array), passed in as `fixedEnd` since the record sizes are external to the
header fields; violations fail with a distinct error instead of producing a
corrupt tile. -/
def sealHeader (fixedEnd : Nat) (b : GraphTileHeaderBuilder) : Except SealError Unit :=
  if offsetsNondecreasing b = true then
    if (sectionOffsets b).all (fun o => decide (fixedEnd ≤ o)) = true then Except.ok ()
    else Except.error SealError.overlapsFixedRegion
  else Except.error SealError.offsetOrdering

/-! ### Bit-extraction helper lemmas -/

/-- Masking with a shifted all-ones block and shifting back is the same as
dividing by the shift and keeping the block width modulo. -/
lemma maskShift_eq_div_mod (w s k : Nat) :
    (w &&& ((2 ^ k - 1) <<< s)) >>> s = w / 2 ^ s % 2 ^ k := by
  apply Nat.eq_of_testBit_eq
  intro i
  rw [Nat.testBit_shiftRight, Nat.testBit_and, Nat.testBit_shiftLeft,
    ← Nat.shiftRight_eq_div_pow, Nat.testBit_mod_two_pow, Nat.testBit_shiftRight]
  have hge : s + i ≥ s := Nat.le_add_right s i
  simp [hge, Nat.add_sub_cancel_left, Nat.testBit_two_pow_sub_one, Bool.and_comm]

/-- Testing a single shifted-one mask for a nonzero conjunction is the same
as testing the bit. -/
lemma and_one_shiftLeft_ne_zero (x k : Nat) :
    decide ((x &&& (1 <<< k)) ≠ 0) = x.testBit k := by
  rw [Nat.one_shiftLeft, Nat.and_two_pow]
  have hpos : 0 < 2 ^ k := Nat.pos_pow_of_pos k (by norm_num)
  cases h : x.testBit k
  · simp [h]
  · simp only [h, Bool.toNat_true, one_mul, decide_eq_true_eq]
    omega

/-- A bit beyond the width of a number is clear. -/
lemma testBit_false_of_lt (x k : Nat) (h : x < 2 ^ k) : x.testBit k = false :=
  Nat.testBit_lt_two_pow h

/-! ### Shared facts about `name_consistency` -/

/-- On a distinct pair whose larger index exceeds `kMaxLocalEdgeIndex`,
`name_consistency` is false whatever the stored bitmask. -/
lemma nc_high (n : NodeInfo) (f t : Nat) (hne : f ≠ t)
    (hmax : kMaxLocalEdgeIndex < max f t) : n.name_consistency f t = false := by
  have h7 : kMaxLocalEdgeIndex = 7 := rfl
  unfold NodeInfo.name_consistency
  rw [if_neg hne]
  rcases Nat.lt_or_ge f t with h | h
  · rw [if_pos h, if_pos (by rw [h7] at hmax ⊢; omega)]
  · rw [if_neg (by omega), if_pos (by rw [h7] at hmax ⊢; omega)]

/-- On a distinct pair within range, `name_consistency` tests the triangular
bit of the overlay word. -/
lemma nc_bit (n : NodeInfo) (f t : Nat) (hne : f ≠ t)
    (hmax : max f t ≤ kMaxLocalEdgeIndex) :
    n.name_consistency f t = n.stop_.testBit (triangularIndex (min f t) (max f t)) := by
  have h7 : kMaxLocalEdgeIndex = 7 := rfl
  unfold NodeInfo.name_consistency
  rw [if_neg hne]
  rcases Nat.lt_or_ge f t with h | h
  · rw [if_pos h, if_neg (by rw [h7] at hmax ⊢; omega), and_one_shiftLeft_ne_zero]
    have hmin : min f t = f := by omega
    have hmax2 : max f t = t := by omega
    rw [hmin, hmax2]
    simp only [triangularIndex]
  · have hlt : t < f := by omega
    rw [if_neg (by omega), if_neg (by rw [h7] at hmax ⊢; omega), and_one_shiftLeft_ne_zero]
    have hmin : min f t = t := by omega
    have hmax2 : max f t = f := by omega
    rw [hmin, hmax2]
    simp only [triangularIndex]

/-! ### Claim theorems -/

/-- C1: in the debug/JSON access-mode breakdown built from a node access
bitmask, every one of the eight per-mode booleans collapses to the single
predicate `access ≠ 0`: all eight modes are reported granted for every
nonzero mask and all eight are reported false for the zero mask, because the
source combines the mask with each flag constant by logical AND. -/
theorem access_json_collapses_to_any_access (access : Nat) :
    (access_json access).map Prod.snd = List.replicate 8 (decide (access ≠ 0)) := by
  simp [access_json, kBicycleAccess, kBusAccess, kAutoAccess, kEmergencyAccess,
    kHOVAccess, kPedestrianAccess, kTaxiAccess, kTruckAccess, List.replicate]

/-- C7: `local_edge_count` returns the stored raw value plus one, hence never
zero; a stored 0 reads back as 1 and a stored 255 reads back as 256. -/
theorem local_edge_count_is_stored_plus_one (n : NodeInfo) :
    n.local_edge_count = n.local_edge_count_ + 1 ∧ n.local_edge_count ≠ 0 ∧
      ({ n with local_edge_count_ := 0 } : NodeInfo).local_edge_count = 1 ∧
      ({ n with local_edge_count_ := 255 } : NodeInfo).local_edge_count = 256 :=
  ⟨rfl, Nat.succ_ne_zero _, rfl, rfl⟩

/-- C4: `name_consistency` returns true immediately on a reflexive pair;
on a distinct pair whose larger index exceeds `kMaxLocalEdgeIndex` it
returns false as a saturating default, independently of the stored bitmask;
and otherwise it tests bit `triangularIndex (min f t) (max f t)` of the
packed bitmask. -/
theorem name_consistency_total_characterization (n : NodeInfo) (f t : Nat) :
    (f = t → n.name_consistency f t = true) ∧
    (f ≠ t → kMaxLocalEdgeIndex < max f t → n.name_consistency f t = false) ∧
    (f ≠ t → max f t ≤ kMaxLocalEdgeIndex →
      n.name_consistency f t = n.stop_.testBit (triangularIndex (min f t) (max f t))) :=
  ⟨fun h => by simp [NodeInfo.name_consistency, h],
   fun hne hmax => nc_high n f t hne hmax,
   fun hne hmax => nc_bit n f t hne hmax⟩

/-- Witness for C4 at concrete inputs: the pair `(0, 9)` saturates to false
on a mask that has its low bits set, and the diagonal pair `(3, 3)` is true. -/
theorem name_consistency_total_characterization_witness :
    ({ NodeInfo.init with stop_ := 9 } : NodeInfo).name_consistency 0 9 = false ∧
    ({ NodeInfo.init with stop_ := 9 } : NodeInfo).name_consistency 3 3 = true :=
  ⟨(name_consistency_total_characterization { NodeInfo.init with stop_ := 9 } 0 9).2.1
      (by decide) (by decide),
   (name_consistency_total_characterization { NodeInfo.init with stop_ := 9 } 3 3).1 rfl⟩

/-- All in-range pairs other than `(2, 5)` and `(5, 2)` are inconsistent on
the mask holding exactly bit 15. -/
lemma nc_bit15_small :
    ∀ i j : Fin 8, (i : Nat) ≠ (j : Nat) → ¬((i : Nat) = 2 ∧ (j : Nat) = 5) →
      ¬((i : Nat) = 5 ∧ (j : Nat) = 2) →
      ({ NodeInfo.init with stop_ := 32768 } : NodeInfo).name_consistency i j = false := by
  decide

/-- C5: with `ContinuityLookup = [0, 7, 13, 18, 22, 25, 27]` the pair
`(2, 5)` lives at bit `13 + (5 - 2 - 1) = 15`; on the record whose overlay
word holds exactly bit 15, `name_consistency` is true on `(2, 5)` and
`(5, 2)` and false on every other distinct pair. -/
theorem name_consistency_exact_bit15 :
    ({ NodeInfo.init with stop_ := 32768 } : NodeInfo).name_consistency 2 5 = true ∧
    ({ NodeInfo.init with stop_ := 32768 } : NodeInfo).name_consistency 5 2 = true ∧
    ∀ i j : Nat, i ≠ j → ¬(i = 2 ∧ j = 5) → ¬(i = 5 ∧ j = 2) →
      ({ NodeInfo.init with stop_ := 32768 } : NodeInfo).name_consistency i j = false := by
  refine ⟨by decide, by decide, fun i j hne h25 h52 => ?_⟩
  rcases Nat.lt_or_ge (max i j) 8 with h | h
  · exact nc_bit15_small ⟨i, by omega⟩ ⟨j, by omega⟩ hne h25 h52
  · exact nc_high _ i j hne (by rw [show kMaxLocalEdgeIndex = 7 from rfl]; omega)

/-- Witness for C5 at a concrete pair: `(1, 3)` is inconsistent on the
bit-15 mask. -/
theorem name_consistency_exact_bit15_witness :
    ({ NodeInfo.init with stop_ := 32768 } : NodeInfo).name_consistency 1 3 = false :=
  name_consistency_exact_bit15.2.2 1 3 (by decide) (by decide) (by decide)

/-- C3: `stop_index` returns the raw overlay word unconditionally: it does
not consult the node type, and on a non-transit node it returns exactly the
32-bit word whose bits `name_consistency` tests. -/
theorem stop_index_unconditionally_aliases_overlay (n : NodeInfo) :
    n.stop_index = n.stop_ ∧
    (∀ ty : NodeType, ({ n with type_ := ty } : NodeInfo).stop_index = n.stop_index) ∧
    (n.is_transit = false → ∀ f t, f ≠ t → max f t ≤ kMaxLocalEdgeIndex →
      n.name_consistency f t = n.stop_index.testBit (triangularIndex (min f t) (max f t))) :=
  ⟨rfl, fun _ => rfl, fun _ f t hne hmax => nc_bit n f t hne hmax⟩

/-- Witness for C3: a concrete non-transit record whose overlay word is 32;
reading the pair `(0, 4)` tests a bit of the very value `stop_index`
returns. -/
theorem stop_index_unconditionally_aliases_overlay_witness :
    ({ NodeInfo.init with stop_ := 32 } : NodeInfo).name_consistency 0 4 =
      ({ NodeInfo.init with stop_ := 32 } : NodeInfo).stop_index.testBit
        (triangularIndex (min 0 4) (max 0 4)) :=
  (stop_index_unconditionally_aliases_overlay
      { NodeInfo.init with stop_ := 32 }).2.2 (by decide) 0 4 (by decide) (by decide)

/-- C8: within the 32-bit field, `local_driveability` decodes exactly the
2-bit group at bit offset `localidx * 2`, and distinct indices never
interfere: two stored words that agree on every bit outside the two bits of
index `i` decode identically at every other index `j`. -/
theorem local_driveability_extracts_isolated_group (n : NodeInfo) (i : Nat) (_h15 : i ≤ 15) :
    n.local_driveability i = n.local_driveability_ / 2 ^ (i * 2) % 4 ∧
    ∀ (m : NodeInfo) (j : Nat), j ≤ 15 → j ≠ i →
      (∀ b : Nat, b ≠ i * 2 → b ≠ i * 2 + 1 →
        n.local_driveability_.testBit b = m.local_driveability_.testBit b) →
      n.local_driveability j = m.local_driveability j := by
  constructor
  · unfold NodeInfo.local_driveability
    rw [show (3 : Nat) = 2 ^ 2 - 1 from rfl, show (4 : Nat) = 2 ^ 2 from rfl]
    exact maskShift_eq_div_mod _ _ _
  · intro m j hj hji hagree
    unfold NodeInfo.local_driveability
    rw [show (3 : Nat) = 2 ^ 2 - 1 from rfl, maskShift_eq_div_mod, maskShift_eq_div_mod]
    apply Nat.eq_of_testBit_eq
    intro b
    rw [Nat.testBit_mod_two_pow, Nat.testBit_mod_two_pow,
      ← Nat.shiftRight_eq_div_pow, ← Nat.shiftRight_eq_div_pow,
      Nat.testBit_shiftRight, Nat.testBit_shiftRight]
    rcases Nat.lt_or_ge b 2 with hb | hb
    · rw [hagree (j * 2 + b) (by omega) (by omega)]
    · simp [Nat.not_lt.mpr hb]

/-- Witness for C8 at concrete inputs: the zero word and the word 192, which
differ exactly in bits 6 and 7 (the group of index 3), decode the same value
at index 4. -/
theorem local_driveability_extracts_isolated_group_witness :
    ({ NodeInfo.init with local_driveability_ := 0 } : NodeInfo).local_driveability 4 =
      ({ NodeInfo.init with local_driveability_ := 192 } : NodeInfo).local_driveability 4 := by
  refine (local_driveability_extracts_isolated_group
      { NodeInfo.init with local_driveability_ := 0 } 3 (by decide)).2
      { NodeInfo.init with local_driveability_ := 192 } 4 (by decide) (by decide) ?_
  intro b h1 h2
  rw [Nat.zero_testBit]
  symm
  rcases Nat.lt_or_ge b 8 with h | h
  · interval_cases b <;> first | decide | omega
  · exact testBit_false_of_lt 192 b
      (lt_of_lt_of_le (by norm_num) (Nat.pow_le_pow_right (by norm_num) h))

/-- The stored byte a mask-and-shift extraction reads equals the div-mod
byte: `heading` in extracted-byte form, valid for every index. -/
lemma heading_eq_div_mod (n : NodeInfo) (localidx : Nat) :
    n.heading localidx =
      (roundQ (((n.headings_ / 2 ^ (localidx * 8) % 256 : Nat) : ℚ) * (360 / 255))).toNat := by
  unfold NodeInfo.heading kHeadingExpandFactor
  rw [show (255 : Nat) = 2 ^ 8 - 1 from rfl, maskShift_eq_div_mod]
  norm_num

/-- The expansion of byte 128 rounds to 181. -/
lemma roundQ_byte_128 : roundQ ((128 : ℚ) * (360 / 255)) = 181 := by
  unfold roundQ
  rw [show (128 : ℚ) * (360 / 255) + 1 / 2 = 6161 / 34 from by norm_num]
  rw [Int.floor_eq_iff]
  norm_num

/-- The expansion of byte 255 rounds to 360 exactly. -/
lemma roundQ_byte_255 : roundQ ((255 : ℚ) * (360 / 255)) = 360 := by
  unfold roundQ
  rw [show (255 : ℚ) * (360 / 255) + 1 / 2 = 721 / 2 from by norm_num]
  rw [Int.floor_eq_iff]
  norm_num

/-- Rounding a byte expanded by `360/255` never exceeds 360. -/
lemma roundQ_expand_le_360 (b : Nat) (hb : b ≤ 255) :
    (roundQ ((b : ℚ) * (360 / 255))).toNat ≤ 360 := by
  have hb2 : (b : ℚ) ≤ 255 := by exact_mod_cast hb
  have hx : (b : ℚ) * (360 / 255) + 1 / 2 < 361 := by nlinarith
  have hfloor : roundQ ((b : ℚ) * (360 / 255)) < 361 := by
    unfold roundQ
    exact Int.floor_lt.mpr (by exact_mod_cast hx)
  omega

/-- C6 (amended): for every local index in `0..7`, `heading` returns the
rounding of `b * (360 / 255)` where `b` is the 8-bit byte stored at bit
offset `localidx * 8` of the headings field, and the returned value lies in
the closed interval `[0, 360]`; the stored byte 128 decodes to 181 (the
quantization asymmetry with encoding 180 is intentional). The value 360
itself is attained at stored byte 255, so the interval is closed rather than
half-open. -/
theorem heading_rounds_stored_byte_within_closed_range :
    (∀ (n : NodeInfo) (localidx : Nat), localidx ≤ 7 →
      n.heading localidx =
        (roundQ (((n.headings_ / 2 ^ (localidx * 8) % 256 : Nat) : ℚ) * (360 / 255))).toNat ∧
      n.heading localidx ≤ 360) ∧
    ({ NodeInfo.init with headings_ := 128 } : NodeInfo).heading 0 = 181 := by
  constructor
  · intro n localidx h
    refine ⟨heading_eq_div_mod n localidx, ?_⟩
    rw [heading_eq_div_mod]
    have hmod : n.headings_ / 2 ^ (localidx * 8) % 256 < 256 :=
      Nat.mod_lt _ (by norm_num)
    exact roundQ_expand_le_360 _ (by omega)
  · have hb : (({ NodeInfo.init with headings_ := 128 } : NodeInfo).headings_ /
        2 ^ (0 * 8) % 256 : Nat) = 128 := rfl
    rw [heading_eq_div_mod, hb,
      show ((128 : Nat) : ℚ) = (128 : ℚ) from by norm_num, roundQ_byte_128]
    rfl

/-- Witness for C6 at a concrete input: the record storing byte 128 at local
index 0 decodes that byte as specified and stays within the closed range. -/
theorem heading_rounds_stored_byte_witness :
    ({ NodeInfo.init with headings_ := 128 } : NodeInfo).heading 0 =
      (roundQ (((({ NodeInfo.init with headings_ := 128 } : NodeInfo).headings_ /
        2 ^ (0 * 8) % 256 : Nat) : ℚ) * (360 / 255))).toNat ∧
    ({ NodeInfo.init with headings_ := 128 } : NodeInfo).heading 0 ≤ 360 :=
  heading_rounds_stored_byte_within_closed_range.1
    { NodeInfo.init with headings_ := 128 } 0 (by decide)

/-- C6 counterexample: the stored byte 255 at local index 0 decodes to
exactly 360, which does not lie in the half-open interval `[0, 360)` the
claim states. -/
theorem heading_attains_360 :
    ({ NodeInfo.init with headings_ := 255 } : NodeInfo).heading 0 = 360 ∧
    ¬(({ NodeInfo.init with headings_ := 255 } : NodeInfo).heading 0 < 360) := by
  have h : ({ NodeInfo.init with headings_ := 255 } : NodeInfo).heading 0 = 360 := by
    have hb : (({ NodeInfo.init with headings_ := 255 } : NodeInfo).headings_ /
        2 ^ (0 * 8) % 256 : Nat) = 255 := rfl
    rw [heading_eq_div_mod, hb,
      show ((255 : Nat) : ℚ) = (255 : ℚ) from by norm_num, roundQ_byte_255]
    rfl
  exact ⟨h, by omega⟩

/-! ### Builder claims -/

/-- An all-zero builder used as the base of concrete witnesses. -/
def emptyBuilder : GraphTileHeaderBuilder :=
  { internal_version_ := 0, date_created_ := 0,
    version_ := List.replicate kMaxVersionSize 0, nodecount_ := 0,
    directededgecount_ := 0, edgeinfo_offset_ := 0, textlist_offset_ := 0,
    exitlist_offset_ := 0, admin_offset_ := 0, merlist_offset_ := 0,
    timedres_offset_ := 0, transit_offset_ := 0 }

/-- A populated builder with non-decreasing offsets, after the spec example
`edgeinfo = 100, textlist = 150, exitlist = 150, admin = 200, ...`. -/
def goodBuilder : GraphTileHeaderBuilder :=
  { emptyBuilder with
    edgeinfo_offset_ := 100,
    textlist_offset_ := 150,
    exitlist_offset_ := 150,
    admin_offset_ := 200,
    merlist_offset_ := 210,
    timedres_offset_ := 220,
    transit_offset_ := 230 }

/-- The ordering violation of the spec example: the text-list offset 90
precedes the edge-info offset 100. -/
def badBuilder : GraphTileHeaderBuilder :=
  { goodBuilder with textlist_offset_ := 90 }

/-- C2: sealing fails with the offset-ordering error whenever the seven
section offsets are not monotonically non-decreasing in section order, and
succeeds exactly when they are non-decreasing (equal values allowed),
provided every offset clears the end of the fixed-size region. -/
theorem sealHeader_enforces_offset_order (b : GraphTileHeaderBuilder) (fixedEnd : Nat) :
    (offsetsNondecreasing b = false →
      sealHeader fixedEnd b = Except.error SealError.offsetOrdering) ∧
    ((sectionOffsets b).all (fun o => decide (fixedEnd ≤ o)) = true →
      (sealHeader fixedEnd b = Except.ok () ↔ offsetsNondecreasing b = true)) := by
  constructor
  · intro h
    unfold sealHeader
    rw [h]
    simp
  · intro hall
    unfold sealHeader
    cases hord : offsetsNondecreasing b
    · simp
    · rw [hall]
      simp

/-- Witness for C2 on the spec examples: the non-decreasing offsets seal
successfully and the out-of-order text-list offset fails with the ordering
error, with the fixed-size region ending at byte 80. -/
theorem sealHeader_enforces_offset_order_witness :
    sealHeader 80 goodBuilder = Except.ok () ∧
    sealHeader 80 badBuilder = Except.error SealError.offsetOrdering :=
  ⟨((sealHeader_enforces_offset_order goodBuilder 80).2 (by decide)).mpr (by decide),
   (sealHeader_enforces_offset_order badBuilder 80).1 (by decide)⟩

/-- A list with no zero byte is its own C string. -/
lemma cstr_eq_self (s : List Nat) (h : 0 ∉ s) : cstr s = s := by
  unfold cstr
  rw [List.takeWhile_eq_self_iff]
  intro x hx
  have hne : x ≠ 0 := fun e => h (e ▸ hx)
  simp [hne]

/-- The C string of a zero-free prefix followed by a zero byte is exactly
that prefix. -/
lemma cstr_append_zero (l t : List Nat) (h : 0 ∉ l) : cstr (l ++ 0 :: t) = l := by
  induction l with
  | nil => simp [cstr, List.takeWhile_cons]
  | cons a l ih =>
    have ha : a ≠ 0 := fun e => h (by rw [e]; exact List.mem_cons_self 0 l)
    have hl : 0 ∉ l := fun hm => h (List.mem_cons_of_mem a hm)
    have ih2 := ih hl
    unfold cstr at ih2 ⊢
    simp [List.takeWhile_cons, ha]
    simpa using ih2

/-- C9: `set_version` stores at most `kMaxVersionSize - 1` characters
followed by a zero terminator: an input of length at least `kMaxVersionSize`
is silently truncated to its first `kMaxVersionSize - 1` characters, a
shorter input is stored unchanged, and reading the version back yields
exactly the truncated string. -/
theorem set_version_silently_truncates (b : GraphTileHeaderBuilder) (s : List Nat)
    (h : 0 ∉ s) :
    (b.set_version s).version =
      if kMaxVersionSize ≤ s.length then s.take (kMaxVersionSize - 1) else s := by
  have h16 : kMaxVersionSize = 16 := rfl
  unfold GraphTileHeaderBuilder.set_version GraphTileHeaderBuilder.version
  dsimp only
  rw [cstr_eq_self s h, h16]
  have hsub : (16 : Nat) - 1 = 15 := rfl
  rw [hsub]
  by_cases hlen : 16 ≤ s.length
  · rw [if_pos hlen]
    have hrep : 16 - s.length = 0 := by omega
    rw [hrep, List.replicate_zero, List.append_nil]
    have ht : s.take 16 = s.take 15 ++ [s[15]] := by
      rw [show (16 : Nat) = 15 + 1 from rfl, List.take_succ,
        List.getElem?_eq_getElem (by omega)]
      rfl
    rw [ht]
    have hlen15 : (s.take 15).length = 15 := by
      rw [List.length_take]
      omega
    have hbuf : (s.take 15 ++ [s[15]]).set 15 0 = s.take 15 ++ [0] := by
      rw [List.set_append, if_neg (by omega), hlen15]
      simp
    rw [hbuf]
    exact cstr_append_zero _ [] (fun hm => h (List.mem_of_mem_take hm))
  · rw [if_neg hlen]
    have htake : s.take 16 = s := List.take_of_length_le (by omega)
    have hrep : 16 - s.length = (15 - s.length) + 1 := by omega
    rw [htake, hrep, List.replicate_succ]
    have hidx : (15 : Nat) = s.length + (15 - s.length) := by omega
    rw [hidx, List.set_append, if_neg (by omega), Nat.add_sub_cancel_left]
    cases hc : 15 - s.length with
    | zero =>
      rw [List.replicate_zero, List.set_cons_zero]
      exact cstr_append_zero s [] h
    | succ m =>
      rw [List.set_cons_succ]
      exact cstr_append_zero s _ h

/-- The spec example version string, as byte values:
`this-string-is-too-long-for-the-field`, 37 characters. -/
def longVersion : List Nat :=
  [116, 104, 105, 115, 45, 115, 116, 114, 105, 110, 103, 45, 105, 115, 45,
   116, 111, 111, 45, 108, 111, 110, 103, 45, 102, 111, 114, 45, 116, 104,
   101, 45, 102, 105, 101, 108, 100]

/-- Witness for C9 on the spec example: the 37-character version string
truncates to its first 15 characters. -/
theorem set_version_silently_truncates_witness :
    (emptyBuilder.set_version longVersion).version = longVersion.take 15 := by
  have h := set_version_silently_truncates emptyBuilder longVersion (by decide)
  rw [if_pos (by decide)] at h
  exact h

/-- C10: every builder setter writes only its own header field: for each of
the twelve setters and every value, the eleven other fields keep their prior
values. -/
theorem setters_write_only_their_own_field (b : GraphTileHeaderBuilder) :
    (∀ v : Int,
      (b.set_internal_version v).date_created_ = b.date_created_ ∧
      (b.set_internal_version v).version_ = b.version_ ∧
      (b.set_internal_version v).nodecount_ = b.nodecount_ ∧
      (b.set_internal_version v).directededgecount_ = b.directededgecount_ ∧
      (b.set_internal_version v).edgeinfo_offset_ = b.edgeinfo_offset_ ∧
      (b.set_internal_version v).textlist_offset_ = b.textlist_offset_ ∧
      (b.set_internal_version v).exitlist_offset_ = b.exitlist_offset_ ∧
      (b.set_internal_version v).admin_offset_ = b.admin_offset_ ∧
      (b.set_internal_version v).merlist_offset_ = b.merlist_offset_ ∧
      (b.set_internal_version v).timedres_offset_ = b.timedres_offset_ ∧
      (b.set_internal_version v).transit_offset_ = b.transit_offset_) ∧
    (∀ v : Nat,
      (b.set_date_created v).internal_version_ = b.internal_version_ ∧
      (b.set_date_created v).version_ = b.version_ ∧
      (b.set_date_created v).nodecount_ = b.nodecount_ ∧
      (b.set_date_created v).directededgecount_ = b.directededgecount_ ∧
      (b.set_date_created v).edgeinfo_offset_ = b.edgeinfo_offset_ ∧
      (b.set_date_created v).textlist_offset_ = b.textlist_offset_ ∧
      (b.set_date_created v).exitlist_offset_ = b.exitlist_offset_ ∧
      (b.set_date_created v).admin_offset_ = b.admin_offset_ ∧
      (b.set_date_created v).merlist_offset_ = b.merlist_offset_ ∧
      (b.set_date_created v).timedres_offset_ = b.timedres_offset_ ∧
      (b.set_date_created v).transit_offset_ = b.transit_offset_) ∧
    (∀ v : List Nat,
      (b.set_version v).internal_version_ = b.internal_version_ ∧
      (b.set_version v).date_created_ = b.date_created_ ∧
      (b.set_version v).nodecount_ = b.nodecount_ ∧
      (b.set_version v).directededgecount_ = b.directededgecount_ ∧
      (b.set_version v).edgeinfo_offset_ = b.edgeinfo_offset_ ∧
      (b.set_version v).textlist_offset_ = b.textlist_offset_ ∧
      (b.set_version v).exitlist_offset_ = b.exitlist_offset_ ∧
      (b.set_version v).admin_offset_ = b.admin_offset_ ∧
      (b.set_version v).merlist_offset_ = b.merlist_offset_ ∧
      (b.set_version v).timedres_offset_ = b.timedres_offset_ ∧
      (b.set_version v).transit_offset_ = b.transit_offset_) ∧
    (∀ v : Nat,
      (b.set_nodecount v).internal_version_ = b.internal_version_ ∧
      (b.set_nodecount v).date_created_ = b.date_created_ ∧
      (b.set_nodecount v).version_ = b.version_ ∧
      (b.set_nodecount v).directededgecount_ = b.directededgecount_ ∧
      (b.set_nodecount v).edgeinfo_offset_ = b.edgeinfo_offset_ ∧
      (b.set_nodecount v).textlist_offset_ = b.textlist_offset_ ∧
      (b.set_nodecount v).exitlist_offset_ = b.exitlist_offset_ ∧
      (b.set_nodecount v).admin_offset_ = b.admin_offset_ ∧
      (b.set_nodecount v).merlist_offset_ = b.merlist_offset_ ∧
      (b.set_nodecount v).timedres_offset_ = b.timedres_offset_ ∧
      (b.set_nodecount v).transit_offset_ = b.transit_offset_) ∧
    (∀ v : Nat,
      (b.set_directededgecount v).internal_version_ = b.internal_version_ ∧
      (b.set_directededgecount v).date_created_ = b.date_created_ ∧
      (b.set_directededgecount v).version_ = b.version_ ∧
      (b.set_directededgecount v).nodecount_ = b.nodecount_ ∧
      (b.set_directededgecount v).edgeinfo_offset_ = b.edgeinfo_offset_ ∧
      (b.set_directededgecount v).textlist_offset_ = b.textlist_offset_ ∧
      (b.set_directededgecount v).exitlist_offset_ = b.exitlist_offset_ ∧
      (b.set_directededgecount v).admin_offset_ = b.admin_offset_ ∧
      (b.set_directededgecount v).merlist_offset_ = b.merlist_offset_ ∧
      (b.set_directededgecount v).timedres_offset_ = b.timedres_offset_ ∧
      (b.set_directededgecount v).transit_offset_ = b.transit_offset_) ∧
    (∀ v : Nat,
      (b.set_edgeinfo_offset v).internal_version_ = b.internal_version_ ∧
      (b.set_edgeinfo_offset v).date_created_ = b.date_created_ ∧
      (b.set_edgeinfo_offset v).version_ = b.version_ ∧
      (b.set_edgeinfo_offset v).nodecount_ = b.nodecount_ ∧
      (b.set_edgeinfo_offset v).directededgecount_ = b.directededgecount_ ∧
      (b.set_edgeinfo_offset v).textlist_offset_ = b.textlist_offset_ ∧
      (b.set_edgeinfo_offset v).exitlist_offset_ = b.exitlist_offset_ ∧
      (b.set_edgeinfo_offset v).admin_offset_ = b.admin_offset_ ∧
      (b.set_edgeinfo_offset v).merlist_offset_ = b.merlist_offset_ ∧
      (b.set_edgeinfo_offset v).timedres_offset_ = b.timedres_offset_ ∧
      (b.set_edgeinfo_offset v).transit_offset_ = b.transit_offset_) ∧
    (∀ v : Nat,
      (b.set_textlist_offset v).internal_version_ = b.internal_version_ ∧
      (b.set_textlist_offset v).date_created_ = b.date_created_ ∧
      (b.set_textlist_offset v).version_ = b.version_ ∧
      (b.set_textlist_offset v).nodecount_ = b.nodecount_ ∧
      (b.set_textlist_offset v).directededgecount_ = b.directededgecount_ ∧
      (b.set_textlist_offset v).edgeinfo_offset_ = b.edgeinfo_offset_ ∧
      (b.set_textlist_offset v).exitlist_offset_ = b.exitlist_offset_ ∧
      (b.set_textlist_offset v).admin_offset_ = b.admin_offset_ ∧
      (b.set_textlist_offset v).merlist_offset_ = b.merlist_offset_ ∧
      (b.set_textlist_offset v).timedres_offset_ = b.timedres_offset_ ∧
      (b.set_textlist_offset v).transit_offset_ = b.transit_offset_) ∧
    (∀ v : Nat,
      (b.set_exitlist_offset v).internal_version_ = b.internal_version_ ∧
      (b.set_exitlist_offset v).date_created_ = b.date_created_ ∧
      (b.set_exitlist_offset v).version_ = b.version_ ∧
      (b.set_exitlist_offset v).nodecount_ = b.nodecount_ ∧
      (b.set_exitlist_offset v).directededgecount_ = b.directededgecount_ ∧
      (b.set_exitlist_offset v).edgeinfo_offset_ = b.edgeinfo_offset_ ∧
      (b.set_exitlist_offset v).textlist_offset_ = b.textlist_offset_ ∧
      (b.set_exitlist_offset v).admin_offset_ = b.admin_offset_ ∧
      (b.set_exitlist_offset v).merlist_offset_ = b.merlist_offset_ ∧
      (b.set_exitlist_offset v).timedres_offset_ = b.timedres_offset_ ∧
      (b.set_exitlist_offset v).transit_offset_ = b.transit_offset_) ∧
    (∀ v : Nat,
      (b.set_admin_offset v).internal_version_ = b.internal_version_ ∧
      (b.set_admin_offset v).date_created_ = b.date_created_ ∧
      (b.set_admin_offset v).version_ = b.version_ ∧
      (b.set_admin_offset v).nodecount_ = b.nodecount_ ∧
      (b.set_admin_offset v).directededgecount_ = b.directededgecount_ ∧
      (b.set_admin_offset v).edgeinfo_offset_ = b.edgeinfo_offset_ ∧
      (b.set_admin_offset v).textlist_offset_ = b.textlist_offset_ ∧
      (b.set_admin_offset v).exitlist_offset_ = b.exitlist_offset_ ∧
      (b.set_admin_offset v).merlist_offset_ = b.merlist_offset_ ∧
      (b.set_admin_offset v).timedres_offset_ = b.timedres_offset_ ∧
      (b.set_admin_offset v).transit_offset_ = b.transit_offset_) ∧
    (∀ v : Nat,
      (b.set_merlist_offset v).internal_version_ = b.internal_version_ ∧
      (b.set_merlist_offset v).date_created_ = b.date_created_ ∧
      (b.set_merlist_offset v).version_ = b.version_ ∧
      (b.set_merlist_offset v).nodecount_ = b.nodecount_ ∧
      (b.set_merlist_offset v).directededgecount_ = b.directededgecount_ ∧
      (b.set_merlist_offset v).edgeinfo_offset_ = b.edgeinfo_offset_ ∧
      (b.set_merlist_offset v).textlist_offset_ = b.textlist_offset_ ∧
      (b.set_merlist_offset v).exitlist_offset_ = b.exitlist_offset_ ∧
      (b.set_merlist_offset v).admin_offset_ = b.admin_offset_ ∧
      (b.set_merlist_offset v).timedres_offset_ = b.timedres_offset_ ∧
      (b.set_merlist_offset v).transit_offset_ = b.transit_offset_) ∧
    (∀ v : Nat,
      (b.set_timedres_offset v).internal_version_ = b.internal_version_ ∧
      (b.set_timedres_offset v).date_created_ = b.date_created_ ∧
      (b.set_timedres_offset v).version_ = b.version_ ∧
      (b.set_timedres_offset v).nodecount_ = b.nodecount_ ∧
      (b.set_timedres_offset v).directededgecount_ = b.directededgecount_ ∧
      (b.set_timedres_offset v).edgeinfo_offset_ = b.edgeinfo_offset_ ∧
      (b.set_timedres_offset v).textlist_offset_ = b.textlist_offset_ ∧
      (b.set_timedres_offset v).exitlist_offset_ = b.exitlist_offset_ ∧
      (b.set_timedres_offset v).admin_offset_ = b.admin_offset_ ∧
      (b.set_timedres_offset v).merlist_offset_ = b.merlist_offset_ ∧
      (b.set_timedres_offset v).transit_offset_ = b.transit_offset_) ∧
    (∀ v : Nat,
      (b.set_transit_offset v).internal_version_ = b.internal_version_ ∧
      (b.set_transit_offset v).date_created_ = b.date_created_ ∧
      (b.set_transit_offset v).version_ = b.version_ ∧
      (b.set_transit_offset v).nodecount_ = b.nodecount_ ∧
      (b.set_transit_offset v).directededgecount_ = b.directededgecount_ ∧
      (b.set_transit_offset v).edgeinfo_offset_ = b.edgeinfo_offset_ ∧
      (b.set_transit_offset v).textlist_offset_ = b.textlist_offset_ ∧
      (b.set_transit_offset v).exitlist_offset_ = b.exitlist_offset_ ∧
      (b.set_transit_offset v).admin_offset_ = b.admin_offset_ ∧
      (b.set_transit_offset v).merlist_offset_ = b.merlist_offset_ ∧
      (b.set_transit_offset v).timedres_offset_ = b.timedres_offset_) :=
  ⟨fun _ => ⟨rfl, rfl, rfl, rfl, rfl, rfl, rfl, rfl, rfl, rfl, rfl⟩,
   fun _ => ⟨rfl, rfl, rfl, rfl, rfl, rfl, rfl, rfl, rfl, rfl, rfl⟩,
   fun _ => ⟨rfl, rfl, rfl, rfl, rfl, rfl, rfl, rfl, rfl, rfl, rfl⟩,
   fun _ => ⟨rfl, rfl, rfl, rfl, rfl, rfl, rfl, rfl, rfl, rfl, rfl⟩,
   fun _ => ⟨rfl, rfl, rfl, rfl, rfl, rfl, rfl, rfl, rfl, rfl, rfl⟩,
   fun _ => ⟨rfl, rfl, rfl, rfl, rfl, rfl, rfl, rfl, rfl, rfl, rfl⟩,
   fun _ => ⟨rfl, rfl, rfl, rfl, rfl, rfl, rfl, rfl, rfl, rfl, rfl⟩,
   fun _ => ⟨rfl, rfl, rfl, rfl, rfl, rfl, rfl, rfl, rfl, rfl, rfl⟩,
   fun _ => ⟨rfl, rfl, rfl, rfl, rfl, rfl, rfl, rfl, rfl, rfl, rfl⟩,
   fun _ => ⟨rfl, rfl, rfl, rfl, rfl, rfl, rfl, rfl, rfl, rfl, rfl⟩,
   fun _ => ⟨rfl, rfl, rfl, rfl, rfl, rfl, rfl, rfl, rfl, rfl, rfl⟩,
   fun _ => ⟨rfl, rfl, rfl, rfl, rfl, rfl, rfl, rfl, rfl, rfl, rfl⟩⟩

end Valhalla
